import Mathlib

/-
Shallow embedding of src/notehub.py (a Notehub MCP tool server).

The Python module holds two pieces of process-wide mutable state:
  token_cache         : Dict[str, Dict[str, Any]]   (cache key -> {token, timestamp})
  current_credentials : Optional[Dict[str, str]]    ({username, password})
We model the state explicitly and pass it to each operation.  A Python dict
with string keys is modelled as an association list in insertion order:
lookup returns the first binding, assignment replaces the first binding in
place or appends, deletion removes the binding.  time.time() is modelled as
an integer number of seconds supplied as a parameter `now`.  The remote
Notehub SDK calls (login, get_projects, get_project_devices,
get_project_events, handle_note_add) are external collaborators and are
modelled as oracle functions returning Except (a raised ApiException /
exception message) or a value; Python try/except blocks become matches on
those Except values.
-/

namespace Notehub

/-- A Python dict whose concrete field structure the claims never inspect:
string keys to string values (responses from the SDK are passed through
opaquely via .to_dict()). -/
abbrev PyDict := List (String × String)

/-- current_credentials when set: {"username": ..., "password": ...}
(src/notehub.py line 42). -/
structure Credentials where
  username : String
  password : String
deriving Repr, DecidableEq

/-- One token_cache entry: {"token": ..., "timestamp": ...}
(src/notehub.py lines 104-107). -/
structure CacheEntry where
  token : String
  timestamp : Int
deriving Repr, DecidableEq

/-- token_cache: a Python dict from cache key to entry, in insertion order. -/
abbrev TokenCache := List (String × CacheEntry)

/-- TOKEN_EXPIRY_SECONDS = 3600 (src/notehub.py line 29). -/
def TOKEN_EXPIRY_SECONDS : Int := 3600

/-- Python dict lookup: first binding for the key (keys are unique in a real
dict; on an arbitrary association list we take the first, which is what a
dict degenerates to). -/
def dictLookup : TokenCache → String → Option CacheEntry
  | [], _ => none
  | (k, v) :: rest, key => if k = key then some v else dictLookup rest key

/-- Python dict assignment d[key] = v: replace the first binding in place,
or append when the key is absent. -/
def dictInsert : TokenCache → String → CacheEntry → TokenCache
  | [], key, v => [(key, v)]
  | (k, w) :: rest, key, v =>
      if k = key then (key, v) :: rest else (k, w) :: dictInsert rest key v

/-- clear_expired_tokens (src/notehub.py lines 60-68): collect the keys with
current_time - value["timestamp"] > TOKEN_EXPIRY_SECONDS and delete them;
equivalently, keep exactly the entries that are NOT past expiry. -/
def clear_expired_tokens (now : Int) (cache : TokenCache) : TokenCache :=
  cache.filter (fun kv => !decide (now - kv.2.timestamp > TOKEN_EXPIRY_SECONDS))

/-- The cache key (src/notehub.py line 85):
f-string username, a colon, password. -/
def cache_key (c : Credentials) : String :=
  c.username ++ ":" ++ c.password

/-- Outcome of one get_session_token call: the returned token or the raised
exception message, the token_cache after the call, and how many login
requests were issued against the remote authorization endpoint. -/
structure TokenCallResult where
  result : Except String String
  cache : TokenCache
  logins : Nat
deriving Repr

/-- get_session_token (src/notehub.py lines 70-111).  `login` is the remote
authorization endpoint: api_instance.login(login_request), which returns a
session token or raises an ApiException carrying a message. -/
def get_session_token (login : Credentials → Except String String)
    (now : Int) (current_credentials : Option Credentials)
    (token_cache : TokenCache) : TokenCallResult :=
  match current_credentials with
  | none =>
      ⟨Except.error "Credentials not set. Call set_credentials() first.",
       token_cache, 0⟩
  | some c =>
      let cache1 := clear_expired_tokens now token_cache
      match dictLookup cache1 (cache_key c) with
      | some entry => ⟨Except.ok entry.token, cache1, 0⟩
      | none =>
          match login c with
          | Except.ok tok =>
              ⟨Except.ok tok, dictInsert cache1 (cache_key c) ⟨tok, now⟩, 1⟩
          | Except.error e =>
              ⟨Except.error ("Error getting session token: " ++ e), cache1, 1⟩

theorem mem_clear_expired {now : Int} {cache : TokenCache} {kv : String × CacheEntry}
    (h : kv ∈ clear_expired_tokens now cache) :
    kv ∈ cache ∧ now - kv.2.timestamp ≤ TOKEN_EXPIRY_SECONDS := by
  unfold clear_expired_tokens at h
  rw [List.mem_filter] at h
  refine ⟨h.1, ?_⟩
  have h2 := h.2
  simp only [Bool.not_eq_true', decide_eq_false_iff_not, not_lt] at h2
  exact h2

theorem clear_expired_eq_self {now : Int} {cache : TokenCache}
    (h : ∀ kv ∈ cache, now - kv.2.timestamp ≤ TOKEN_EXPIRY_SECONDS) :
    clear_expired_tokens now cache = cache := by
  unfold clear_expired_tokens
  rw [List.filter_eq_self]
  intro kv hkv
  simp only [Bool.not_eq_true', decide_eq_false_iff_not, not_lt]
  exact h kv hkv

theorem clear_expired_idem (now : Int) (cache : TokenCache) :
    clear_expired_tokens now (clear_expired_tokens now cache)
      = clear_expired_tokens now cache :=
  clear_expired_eq_self (fun _ hkv => (mem_clear_expired hkv).2)

theorem dictLookup_dictInsert_self (cache : TokenCache) (k : String) (v : CacheEntry) :
    dictLookup (dictInsert cache k v) k = some v := by
  induction cache with
  | nil => simp [dictInsert, dictLookup]
  | cons hd tl ih =>
      obtain ⟨k2, v2⟩ := hd
      by_cases hk : k2 = k
      · simp [dictInsert, dictLookup, hk]
      · simp [dictInsert, dictLookup, hk, ih]

theorem mem_dictInsert {cache : TokenCache} {k : String} {v : CacheEntry}
    {kv : String × CacheEntry} (h : kv ∈ dictInsert cache k v) :
    kv ∈ cache ∨ kv = (k, v) := by
  induction cache with
  | nil =>
      simp only [dictInsert, List.mem_singleton] at h
      exact Or.inr h
  | cons hd tl ih =>
      obtain ⟨k2, v2⟩ := hd
      by_cases hk : k2 = k
      · subst hk
        simp only [dictInsert, if_pos, List.mem_cons] at h
        rcases h with h | h
        · exact Or.inr h
        · exact Or.inl (List.mem_cons_of_mem _ h)
      · simp only [dictInsert, if_neg hk, List.mem_cons] at h
        rcases h with h | h
        · exact Or.inl (h ▸ List.mem_cons_self _ _)
        · rcases ih h with h2 | h2
          · exact Or.inl (List.mem_cons_of_mem _ h2)
          · exact Or.inr h2

theorem dictLookup_clear_expired_of_valid {now : Int} {cache : TokenCache}
    {k : String} {e : CacheEntry}
    (h : dictLookup cache k = some e)
    (hv : now - e.timestamp ≤ TOKEN_EXPIRY_SECONDS) :
    dictLookup (clear_expired_tokens now cache) k = some e := by
  induction cache with
  | nil => simp [dictLookup] at h
  | cons hd tl ih =>
      obtain ⟨k2, v2⟩ := hd
      by_cases hk : k2 = k
      · have hv2 : v2 = e := by
          simp only [dictLookup, if_pos hk, Option.some.injEq] at h
          exact h
        subst hv2
        have hkeep : (!decide (now - v2.timestamp > TOKEN_EXPIRY_SECONDS)) = true := by
          simp only [Bool.not_eq_true', decide_eq_false_iff_not, not_lt]
          exact hv
        simp [clear_expired_tokens, List.filter_cons, hkeep, dictLookup, hk]
      · have h2 : dictLookup tl k = some e := by
          simpa only [dictLookup, if_neg hk] using h
        by_cases hp : now - v2.timestamp > TOKEN_EXPIRY_SECONDS
        · have hdrop : (!decide (now - v2.timestamp > TOKEN_EXPIRY_SECONDS)) = false := by
            simp [hp]
          simp only [clear_expired_tokens, List.filter_cons, hdrop, if_neg,
            Bool.false_eq_true, if_false]
          exact ih h2
        · have hkeep : (!decide (now - v2.timestamp > TOKEN_EXPIRY_SECONDS)) = true := by
            simp [hp]
          simp only [clear_expired_tokens, List.filter_cons, hkeep, if_true]
          simpa [dictLookup, hk] using ih h2

theorem dictLookup_clear_expired_of_expired {now : Int} {cache : TokenCache}
    {k : String}
    (h : ∀ v : CacheEntry, (k, v) ∈ cache → now - v.timestamp > TOKEN_EXPIRY_SECONDS) :
    dictLookup (clear_expired_tokens now cache) k = none := by
  induction cache with
  | nil => simp [clear_expired_tokens, dictLookup]
  | cons hd tl ih =>
      obtain ⟨k2, v2⟩ := hd
      by_cases hp : now - v2.timestamp > TOKEN_EXPIRY_SECONDS
      · have hdrop : (!decide (now - v2.timestamp > TOKEN_EXPIRY_SECONDS)) = false := by
          simp [hp]
        simp only [clear_expired_tokens, List.filter_cons, hdrop, Bool.false_eq_true,
          if_false]
        exact ih (fun v hv => h v (List.mem_cons_of_mem _ hv))
      · have hk : k2 ≠ k := by
          intro he
          exact hp (h v2 (by rw [he]; exact List.mem_cons_self _ _))
        have hkeep : (!decide (now - v2.timestamp > TOKEN_EXPIRY_SECONDS)) = true := by
          simp [hp]
        simp only [clear_expired_tokens, List.filter_cons, hkeep, if_true, dictLookup,
          if_neg hk]
        exact ih (fun v hv => h v (List.mem_cons_of_mem _ hv))

/-- A value bound to a keyword argument of an SDK listing call.  vNull is
Python None passed explicitly (as distinct from the key being absent). -/
inductive ParamValue where
  | vNull
  | vStr (s : String)
  | vStrList (l : List String)
  | vInt (n : Int)
deriving Repr, DecidableEq

def listParam : Option (List String) → ParamValue
  | none => ParamValue.vNull
  | some l => ParamValue.vStrList l

def strParam : Option String → ParamValue
  | none => ParamValue.vNull
  | some s => ParamValue.vStr s

def intParam : Option Int → ParamValue
  | none => ParamValue.vNull
  | some n => ParamValue.vInt n

/-- The keyword arguments get_project_devices passes to the SDK call
api_instance.get_project_devices (src/notehub.py lines 212-226): params =
tag and device_uid with None values filtered out, while fleet_uid is passed
as an explicit keyword regardless of whether it is set. -/
def get_project_devices_params (fleet_uid tag : Option (List String))
    (device_uid : Option String) : List (String × ParamValue) :=
  let params := [("tag", listParam tag), ("device_uid", strParam device_uid)]
  let filtered_params := params.filter (fun kv => kv.2 ≠ ParamValue.vNull)
  ("fleet_uid", listParam fleet_uid) :: filtered_params

/-- The Python defaults of get_project_events (src/notehub.py lines 237-238):
page_size defaults to 50 and page_num to 1 (not to None). -/
def GET_EVENTS_PAGE_SIZE_DEFAULT : Option Int := some 50

def GET_EVENTS_PAGE_NUM_DEFAULT : Option Int := some 1

/-- The keyword arguments get_project_events passes to the SDK call
api_instance.get_project_events (src/notehub.py lines 281-305): the dict of
all thirteen optional parameters with the None-valued ones filtered out. -/
def get_project_events_params (device_uid serial_number : Option (List String))
    (page_size page_num : Option Int)
    (notecard_firmware location host_firmware host_name product_uid sku :
      Option (List String))
    (fleet_uid files select_fields : Option String) :
    List (String × ParamValue) :=
  let params := [
    ("device_uid", listParam device_uid),
    ("serial_number", listParam serial_number),
    ("page_size", intParam page_size),
    ("page_num", intParam page_num),
    ("notecard_firmware", listParam notecard_firmware),
    ("location", listParam location),
    ("host_firmware", listParam host_firmware),
    ("host_name", listParam host_name),
    ("product_uid", listParam product_uid),
    ("sku", listParam sku),
    ("fleet_uid", strParam fleet_uid),
    ("files", strParam files),
    ("select_fields", strParam select_fields)]
  params.filter (fun kv => kv.2 ≠ ParamValue.vNull)

/-- set_credentials (src/notehub.py lines 33-45): returns the new value of
current_credentials. -/
def set_credentials (username password : String) : Option Credentials :=
  some ⟨username, password⟩

/-- load_credentials_from_env (src/notehub.py lines 47-58).  envU and envP
are os.getenv of NOTEHUB_USERNAME and NOTEHUB_PASSWORD (None when unset);
the Python truthiness test `if username and password` succeeds when both
are present and non-empty.  Returns the Python return value and the new
current_credentials. -/
def load_credentials_from_env (envU envP : Option String)
    (creds : Option Credentials) : Bool × Option Credentials :=
  match envU, envP with
  | some u, some p =>
      if u ≠ "" ∧ p ≠ "" then (true, set_credentials u p) else (false, creds)
  | _, _ => (false, creds)

/-- The getCredentials tool (src/notehub.py lines 113-123): returns the
status mapping and the new current_credentials. -/
def get_credentials (envU envP : Option String)
    (creds : Option Credentials) : PyDict × Option Credentials :=
  match creds with
  | some _ =>
      ([("status", "success"),
        ("message", "Credentials are already set programmatically")], creds)
  | none =>
      match load_credentials_from_env envU envP creds with
      | (true, creds2) =>
          ([("status", "success"),
            ("message", "Credentials loaded from environment variables")], creds2)
      | (false, creds2) =>
          ([("status", "error"),
            ("message", "Credentials could not be loaded from environment variables, use setCredentials to manually set them")], creds2)

/-- The setCredentials tool, set_credentials_tool (src/notehub.py lines
126-154).  The Python test `if not username and not password` fires exactly
when both strings are empty.  On the provided-credentials path the function
body ends without a return statement, so Python returns None: the first
component is none on that path.  Nothing inside the try block can raise, so
the except arms are dead. -/
def set_credentials_tool (envU envP : Option String)
    (creds : Option Credentials) (username password : String) :
    Option PyDict × Option Credentials :=
  if username = "" ∧ password = "" then
    match load_credentials_from_env envU envP creds with
    | (true, creds2) =>
        (some [("status", "success"),
               ("message", "Credentials loaded from environment variables")], creds2)
    | (false, creds2) =>
        (some [("status", "error"),
               ("message", "No credentials provided and none found in environment variables")], creds2)
  else
    (none, set_credentials username password)

/-- Outcome of a facade listing operation: the returned mapping, the token
cache afterwards, the number of login requests issued, and the number of
resource requests issued against the remote endpoint. -/
structure FacadeResult where
  result : PyDict
  cache : TokenCache
  logins : Nat
  apiCalls : Nat
deriving Repr

/-- The getProjects tool, get_projects (src/notehub.py lines 156-181).
api is the remote projects endpoint given the session token; the value of
api is projects_response.to_dict() or a raised exception message.  The
whole body sits in try/except Exception, which returns "error": str(e). -/
def get_projects (login : Credentials → Except String String)
    (api : String → Except String PyDict)
    (now : Int) (creds : Option Credentials) (cache : TokenCache) :
    FacadeResult :=
  let r := get_session_token login now creds cache
  match r.result with
  | Except.error e => ⟨[("error", e)], r.cache, r.logins, 0⟩
  | Except.ok tok =>
      match api tok with
      | Except.ok d => ⟨d, r.cache, r.logins, 1⟩
      | Except.error e => ⟨[("error", e)], r.cache, r.logins, 1⟩

/-- The getDevices tool, get_project_devices (src/notehub.py lines 183-230).
api takes the session token, the positional project_uid and the keyword
arguments of the SDK call. -/
def get_project_devices (login : Credentials → Except String String)
    (api : String → String → List (String × ParamValue) → Except String PyDict)
    (now : Int) (creds : Option Credentials) (cache : TokenCache)
    (project_uid : String) (fleet_uid tag : Option (List String))
    (device_uid : Option String) : FacadeResult :=
  let r := get_session_token login now creds cache
  match r.result with
  | Except.error e => ⟨[("error", e)], r.cache, r.logins, 0⟩
  | Except.ok tok =>
      match api tok project_uid (get_project_devices_params fleet_uid tag device_uid) with
      | Except.ok d => ⟨d, r.cache, r.logins, 1⟩
      | Except.error e => ⟨[("error", e)], r.cache, r.logins, 1⟩

/-- The getEvents tool, get_project_events (src/notehub.py lines 232-309). -/
def get_project_events (login : Credentials → Except String String)
    (api : String → String → List (String × ParamValue) → Except String PyDict)
    (now : Int) (creds : Option Credentials) (cache : TokenCache)
    (project_uid : String)
    (device_uid serial_number : Option (List String))
    (page_size page_num : Option Int)
    (notecard_firmware location host_firmware host_name product_uid sku :
      Option (List String))
    (fleet_uid files select_fields : Option String) : FacadeResult :=
  let r := get_session_token login now creds cache
  match r.result with
  | Except.error e => ⟨[("error", e)], r.cache, r.logins, 0⟩
  | Except.ok tok =>
      match api tok project_uid
          (get_project_events_params device_uid serial_number page_size page_num
            notecard_firmware location host_firmware host_name product_uid sku
            fleet_uid files select_fields) with
      | Except.ok d => ⟨d, r.cache, r.logins, 1⟩
      | Except.error e => ⟨[("error", e)], r.cache, r.logins, 1⟩

/-- notehub_py.Note as constructed by send_note: Note() starts with both
fields unset; body is assigned exactly when the Python body argument is not
None, payload likewise (src/notehub.py lines 342-348). -/
structure Note where
  body : Option PyDict
  payload : Option String
deriving Repr, DecidableEq

/-- The note value send_note builds from its body and payload arguments:
`if body is not None: note.body = body` sets note.body to body itself, so
the field equals the argument; same for payload. -/
def build_note (body : Option PyDict) (payload : Option String) : Note :=
  ⟨body, payload⟩

/-- The Python defaults of send_note (src/notehub.py lines 316-317): body
defaults to the empty dict, payload to None. -/
def SEND_NOTE_BODY_DEFAULT : Option PyDict := some []

def SEND_NOTE_PAYLOAD_DEFAULT : Option String := none

/-- Outcome of one sendNote call: the returned mapping, the cache, the
number of logins, and the note passed to the remote note-add endpoint
(none when no remote note-add request was issued). -/
structure SendNoteResult where
  result : PyDict
  cache : TokenCache
  logins : Nat
  sentNote : Option Note
deriving Repr

/-- The sendNote tool, send_note (src/notehub.py lines 311-362).  noteAdd is
api_instance.handle_note_add(project_uid, device_uid, notefile_id=...,
note=...) given the session token; it returns unit or raises.  The whole
body sits in try/except Exception returning a status/message mapping. -/
def send_note (login : Credentials → Except String String)
    (noteAdd : String → String → String → Option String → Note →
      Except String Unit)
    (now : Int) (creds : Option Credentials) (cache : TokenCache)
    (project_uid device_uid : String) (notefile_id : Option String)
    (body : Option PyDict) (payload : Option String) : SendNoteResult :=
  let r := get_session_token login now creds cache
  match r.result with
  | Except.error e =>
      ⟨[("status", "error"), ("message", e)], r.cache, r.logins, none⟩
  | Except.ok tok =>
      let note := build_note body payload
      match noteAdd tok project_uid device_uid notefile_id note with
      | Except.ok _ =>
          ⟨[("status", "success"), ("message", "Note sent successfully")],
           r.cache, r.logins, some note⟩
      | Except.error e =>
          ⟨[("status", "error"), ("message", e)], r.cache, r.logins, some note⟩

/-- The contribution of one optional parameter to the filtered keyword
arguments: nothing when its value is Python None, one binding otherwise. -/
def optEntry (k : String) (v : ParamValue) : List (String × ParamValue) :=
  if v = ParamValue.vNull then [] else [(k, v)]

theorem filter_params_eq_join (l : List (String × ParamValue)) :
    l.filter (fun kv => kv.2 ≠ ParamValue.vNull)
      = (l.map (fun kv => optEntry kv.1 kv.2)).flatten := by
  induction l with
  | nil => rfl
  | cons hd tl ih =>
      obtain ⟨k, v⟩ := hd
      rw [List.map_cons, List.flatten_cons, ← ih, List.filter_cons]
      by_cases hv : v = ParamValue.vNull
      · subst hv
        simp [optEntry]
      · simp [optEntry, hv]

/-- Claim C1, as stated, is false at the expiry boundary: with the cached
entry obtained at time 0, ttl = 3600 and now = 3600, we have
obtained_at + ttl <= now, yet the getter returns the cached value "STALE"
and performs no login, because clear_expired_tokens evicts only entries
with now - timestamp strictly greater than TOKEN_EXPIRY_SECONDS. -/
theorem C1_counterexample :
    (0 : Int) + TOKEN_EXPIRY_SECONDS ≤ 3600
    ∧ (get_session_token (fun _ => Except.ok "FRESH") 3600 (some ⟨"u", "p"⟩)
        [("u:p", ⟨"STALE", 0⟩)]).result = Except.ok "STALE"
    ∧ (get_session_token (fun _ => Except.ok "FRESH") 3600 (some ⟨"u", "p"⟩)
        [("u:p", ⟨"STALE", 0⟩)]).logins = 0 := by
  refine ⟨by decide, rfl, rfl⟩

/-- Claim C1 (amended): a cached token entry is treated as valid iff
now - obtained_at <= ttl; whenever now - obtained_at > ttl holds for every
cached entry under the credential key at the time the getter runs, the
getter does not return a cached value but triggers a fresh login, and when
the first cached entry under the key satisfies now - obtained_at <= ttl the
getter returns it without logging in. -/
theorem C1_token_validity_amended
    (login : Credentials → Except String String) (now : Int)
    (c : Credentials) (cache : TokenCache) :
    ((∀ v : CacheEntry, (cache_key c, v) ∈ cache →
        now - v.timestamp > TOKEN_EXPIRY_SECONDS) →
      (get_session_token login now (some c) cache).logins = 1
      ∧ (∀ t, login c = Except.ok t →
          (get_session_token login now (some c) cache).result = Except.ok t))
    ∧ (∀ e : CacheEntry, dictLookup cache (cache_key c) = some e →
        now - e.timestamp ≤ TOKEN_EXPIRY_SECONDS →
        (get_session_token login now (some c) cache).result = Except.ok e.token
        ∧ (get_session_token login now (some c) cache).logins = 0) := by
  constructor
  · intro hexp
    have hnone := @dictLookup_clear_expired_of_expired now cache (cache_key c) hexp
    constructor
    · cases hl : login c with
      | ok t => simp [get_session_token, hnone, hl]
      | error e => simp [get_session_token, hnone, hl]
    · intro t ht
      simp [get_session_token, hnone, ht]
  · intro e he hv
    have hsome := dictLookup_clear_expired_of_valid he hv
    exact ⟨by simp [get_session_token, hsome], by simp [get_session_token, hsome]⟩

/-- Witness for C1 (amended): at now = 3601 the sole cached entry under the
key is expired, so a fresh login is triggered and its token returned; at
now = 3600 the entry is still treated as valid and returned without login. -/
theorem C1_token_validity_amended_witness :
    ((get_session_token (fun _ => Except.ok "FRESH") 3601 (some ⟨"u", "p"⟩)
        [("u:p", ⟨"STALE", 0⟩)]).logins = 1
      ∧ (get_session_token (fun _ => Except.ok "FRESH") 3601 (some ⟨"u", "p"⟩)
          [("u:p", ⟨"STALE", 0⟩)]).result = Except.ok "FRESH")
    ∧ ((get_session_token (fun _ => Except.ok "FRESH") 3600 (some ⟨"u", "p"⟩)
        [("u:p", ⟨"STALE", 0⟩)]).result = Except.ok "STALE"
      ∧ (get_session_token (fun _ => Except.ok "FRESH") 3600 (some ⟨"u", "p"⟩)
          [("u:p", ⟨"STALE", 0⟩)]).logins = 0) := by
  constructor
  · have h := (C1_token_validity_amended (fun _ => Except.ok "FRESH") 3601
      ⟨"u", "p"⟩ [("u:p", ⟨"STALE", 0⟩)]).1
    have hexp : ∀ v : CacheEntry,
        (cache_key ⟨"u", "p"⟩, v) ∈ ([("u:p", ⟨"STALE", 0⟩)] : TokenCache) →
        (3601 : Int) - v.timestamp > TOKEN_EXPIRY_SECONDS := by
      intro v hv
      simp only [cache_key, List.mem_singleton, Prod.mk.injEq] at hv
      rw [hv.2]
      decide
    exact ⟨(h hexp).1, (h hexp).2 "FRESH" rfl⟩
  · have h := (C1_token_validity_amended (fun _ => Except.ok "FRESH") 3600
      ⟨"u", "p"⟩ [("u:p", ⟨"STALE", 0⟩)]).2
    have h2 := h ⟨"STALE", 0⟩ (by simp [dictLookup, cache_key]) (by decide)
    exact ⟨h2.1, h2.2⟩

/-- Claim C3: with credentials set, if the first token-getter call returns a
token t, then an immediately following call at the same time is a pure cache
hit: it returns the same token t, issues no login request, and the two calls
together issue at most one login request. -/
theorem C3_second_call_cache_hit
    (login : Credentials → Except String String) (now : Int)
    (c : Credentials) (cache : TokenCache) (t : String)
    (h : (get_session_token login now (some c) cache).result = Except.ok t) :
    (get_session_token login now (some c)
        ((get_session_token login now (some c) cache).cache)).result = Except.ok t
    ∧ (get_session_token login now (some c)
        ((get_session_token login now (some c) cache).cache)).logins = 0
    ∧ (get_session_token login now (some c) cache).logins
        + (get_session_token login now (some c)
            ((get_session_token login now (some c) cache).cache)).logins ≤ 1 := by
  cases hl : dictLookup (clear_expired_tokens now cache) (cache_key c) with
  | some entry =>
      have ht : entry.token = t := by
        have h2 := h
        simp only [get_session_token, hl] at h2
        exact Except.ok.inj h2
      have hidem := clear_expired_idem now cache
      have hr : (get_session_token login now (some c) cache).cache
          = clear_expired_tokens now cache := by
        simp [get_session_token, hl]
      rw [hr]
      have hres : (get_session_token login now (some c)
          (clear_expired_tokens now cache)).result = Except.ok t := by
        simp [get_session_token, hidem, hl, ht]
      have hlog : (get_session_token login now (some c)
          (clear_expired_tokens now cache)).logins = 0 := by
        simp [get_session_token, hidem, hl]
      have hlog1 : (get_session_token login now (some c) cache).logins = 0 := by
        simp [get_session_token, hl]
      exact ⟨hres, hlog, by rw [hlog1, hlog]; omega⟩
  | none =>
      cases hlog : login c with
      | error e =>
          exfalso
          simp [get_session_token, hl, hlog] at h
      | ok tok =>
          have ht : tok = t := by
            have h2 := h
            simp only [get_session_token, hl, hlog] at h2
            exact Except.ok.inj h2
          subst ht
          have hr : (get_session_token login now (some c) cache).cache
              = dictInsert (clear_expired_tokens now cache) (cache_key c)
                  ⟨tok, now⟩ := by
            simp [get_session_token, hl, hlog]
          rw [hr]
          have hvalid : ∀ kv ∈ dictInsert (clear_expired_tokens now cache)
              (cache_key c) ⟨tok, now⟩,
              now - kv.2.timestamp ≤ TOKEN_EXPIRY_SECONDS := by
            intro kv hkv
            rcases mem_dictInsert hkv with h2 | h2
            · exact (mem_clear_expired h2).2
            · rw [h2]
              show now - now ≤ TOKEN_EXPIRY_SECONDS
              unfold TOKEN_EXPIRY_SECONDS
              omega
          have hclear := clear_expired_eq_self hvalid
          have hfind := dictLookup_dictInsert_self
            (clear_expired_tokens now cache) (cache_key c) ⟨tok, now⟩
          have hres : (get_session_token login now (some c)
              (dictInsert (clear_expired_tokens now cache) (cache_key c)
                ⟨tok, now⟩)).result = Except.ok tok := by
            simp [get_session_token, hclear, hfind]
          have hlog2 : (get_session_token login now (some c)
              (dictInsert (clear_expired_tokens now cache) (cache_key c)
                ⟨tok, now⟩)).logins = 0 := by
            simp [get_session_token, hclear, hfind]
          have hlog1 : (get_session_token login now (some c) cache).logins = 1 := by
            simp [get_session_token, hl, hlog]
          exact ⟨hres, hlog2, by rw [hlog1, hlog2]⟩

/-- Claim C2, as stated, is false: in a getDevices call with tag set to
the one-element list sensor and fleet_uid left unset, the keyword arguments
do carry tag, but fleet_uid is not omitted: it is passed explicitly with a
null value, because the source passes fleet_uid=fleet_uid outside the
None-filtering dict; and a getEvents call leaving page size and number
unset does not omit them: the Python defaults are 50 and 1, not None, so
page_size = 50 and page_num = 1 are sent. -/
theorem C2_counterexample :
    ("tag", ParamValue.vStrList ["sensor"])
        ∈ get_project_devices_params none (some ["sensor"]) none
    ∧ ("fleet_uid", ParamValue.vNull)
        ∈ get_project_devices_params none (some ["sensor"]) none
    ∧ ("page_size", ParamValue.vInt 50)
        ∈ get_project_events_params none none GET_EVENTS_PAGE_SIZE_DEFAULT
            GET_EVENTS_PAGE_NUM_DEFAULT none none none none none none none
            none none
    ∧ ("page_num", ParamValue.vInt 1)
        ∈ get_project_events_params none none GET_EVENTS_PAGE_SIZE_DEFAULT
            GET_EVENTS_PAGE_NUM_DEFAULT none none none none none none none
            none none := by
  refine ⟨?_, ?_, ?_, ?_⟩ <;> decide

/-- Claim C2 (amended): the keyword arguments of getEvents are exactly the
concatenation of one per-parameter contribution that is empty when the
parameter is None and a single non-null binding otherwise, so every filter
whose argument is None is omitted entirely and nothing is sent as null;
however, page_size and page_num default to 50 and 1 rather than None, so a
call leaving them unset sends page_size = 50 and page_num = 1.  The keyword
arguments of getDevices treat tag and device_uid the same way, but
fleet_uid is always passed explicitly, with a null value when unset. -/
theorem C2_filter_omission_amended
    (fleet tag : Option (List String)) (dev : Option String)
    (d s notecard_fw loc host_fw host product sku : Option (List String))
    (ps pn : Option Int) (fleet2 files sel : Option String) :
    (get_project_events_params d s ps pn notecard_fw loc host_fw host product
        sku fleet2 files sel
      = optEntry "device_uid" (listParam d)
        ++ optEntry "serial_number" (listParam s)
        ++ optEntry "page_size" (intParam ps)
        ++ optEntry "page_num" (intParam pn)
        ++ optEntry "notecard_firmware" (listParam notecard_fw)
        ++ optEntry "location" (listParam loc)
        ++ optEntry "host_firmware" (listParam host_fw)
        ++ optEntry "host_name" (listParam host)
        ++ optEntry "product_uid" (listParam product)
        ++ optEntry "sku" (listParam sku)
        ++ optEntry "fleet_uid" (strParam fleet2)
        ++ optEntry "files" (strParam files)
        ++ optEntry "select_fields" (strParam sel))
    ∧ (get_project_devices_params fleet tag dev
      = ("fleet_uid", listParam fleet)
        :: (optEntry "tag" (listParam tag)
            ++ optEntry "device_uid" (strParam dev)))
    ∧ (∀ k : String, optEntry k ParamValue.vNull = [])
    ∧ listParam none = ParamValue.vNull
    ∧ strParam none = ParamValue.vNull
    ∧ intParam none = ParamValue.vNull
    ∧ (∀ l, listParam (some l) ≠ ParamValue.vNull)
    ∧ (∀ str, strParam (some str) ≠ ParamValue.vNull)
    ∧ (∀ n, intParam (some n) ≠ ParamValue.vNull)
    ∧ GET_EVENTS_PAGE_SIZE_DEFAULT = some 50
    ∧ GET_EVENTS_PAGE_NUM_DEFAULT = some 1 := by
  refine ⟨?_, ?_, ?_, rfl, rfl, rfl, ?_, ?_, ?_, rfl, rfl⟩
  · show List.filter _ _ = _
    rw [filter_params_eq_join]
    simp only [List.map_cons, List.map_nil, List.flatten_cons, List.flatten_nil,
      List.append_nil, List.append_assoc]
  · show (_, _) :: List.filter _ _ = _
    rw [filter_params_eq_join]
    simp only [List.map_cons, List.map_nil, List.flatten_cons, List.flatten_nil,
      List.append_nil, List.append_assoc]
  · intro k
    simp [optEntry]
  · intro l
    simp [listParam]
  · intro str
    simp [strParam]
  · intro n
    simp [intParam]

/-- Witness for C3: starting from an empty cache, the first call logs in and
returns "TOK"; the immediate second call is a cache hit. -/
theorem C3_second_call_cache_hit_witness :
    (get_session_token (fun _ => Except.ok "TOK") 0 (some ⟨"u", "p"⟩)
        ((get_session_token (fun _ => Except.ok "TOK") 0 (some ⟨"u", "p"⟩)
            []).cache)).result = Except.ok "TOK"
    ∧ (get_session_token (fun _ => Except.ok "TOK") 0 (some ⟨"u", "p"⟩)
        ((get_session_token (fun _ => Except.ok "TOK") 0 (some ⟨"u", "p"⟩)
            []).cache)).logins = 0 := by
  have h := C3_second_call_cache_hit (fun _ => Except.ok "TOK") 0 ⟨"u", "p"⟩
    [] "TOK" rfl
  exact ⟨h.1, h.2.1⟩

/-- Claim C4: no fault crosses a facade operation.  Every facade body sits
in try/except Exception, so a failure of the token step surfaces as the
operation's error mapping ("error" for the listing operations, a
status/message pair for sendNote), and a failure of the remote resource
call, reached with the obtained token, surfaces the same way; the facades
are total functions into mappings, so nothing propagates. -/
theorem C4_facade_error_shape
    (login : Credentials → Except String String)
    (apiP : String → Except String PyDict)
    (apiD apiE : String → String → List (String × ParamValue) → Except String PyDict)
    (noteAdd : String → String → String → Option String → Note → Except String Unit)
    (now : Int) (creds : Option Credentials) (cache : TokenCache)
    (pu du2 : String) (fleet tag : Option (List String)) (dev : Option String)
    (d s nfw loc hfw hname pr sk : Option (List String)) (ps pn : Option Int)
    (fu fi se : Option String) (nfid : Option String)
    (body : Option PyDict) (payload : Option String) :
    (∀ e, (get_session_token login now creds cache).result = Except.error e →
        (get_projects login apiP now creds cache).result = [("error", e)]
        ∧ (get_project_devices login apiD now creds cache pu fleet tag dev).result
            = [("error", e)]
        ∧ (get_project_events login apiE now creds cache pu d s ps pn nfw loc
              hfw hname pr sk fu fi se).result = [("error", e)]
        ∧ (send_note login noteAdd now creds cache pu du2 nfid body
              payload).result = [("status", "error"), ("message", e)])
    ∧ (∀ t e, (get_session_token login now creds cache).result = Except.ok t →
        (apiP t = Except.error e →
          (get_projects login apiP now creds cache).result = [("error", e)])
        ∧ (apiD t pu (get_project_devices_params fleet tag dev)
              = Except.error e →
          (get_project_devices login apiD now creds cache pu fleet tag
              dev).result = [("error", e)])
        ∧ (apiE t pu (get_project_events_params d s ps pn nfw loc hfw hname pr
              sk fu fi se) = Except.error e →
          (get_project_events login apiE now creds cache pu d s ps pn nfw loc
              hfw hname pr sk fu fi se).result = [("error", e)])
        ∧ (noteAdd t pu du2 nfid (build_note body payload) = Except.error e →
          (send_note login noteAdd now creds cache pu du2 nfid body
              payload).result = [("status", "error"), ("message", e)])) := by
  constructor
  · intro e he
    refine ⟨?_, ?_, ?_, ?_⟩ <;>
      simp [get_projects, get_project_devices, get_project_events, send_note, he]
  · intro t e ht
    refine ⟨?_, ?_, ?_, ?_⟩ <;> intro ha <;>
      simp [get_projects, get_project_devices, get_project_events, send_note,
        ht, ha]

/-- Witness for C4: with no credentials the getProjects facade returns the
error mapping for the missing-credentials exception, and with a working
token a failing note-add call surfaces as a status error mapping from
sendNote. -/
theorem C4_facade_error_shape_witness :
    (get_projects (fun _ => Except.error "boom") (fun _ => Except.error "down")
        0 none []).result
      = [("error", "Credentials not set. Call set_credentials() first.")]
    ∧ (send_note (fun _ => Except.ok "T") (fun _ _ _ _ _ => Except.error "down")
        0 (some ⟨"u", "p"⟩) [] "proj" "dev" none (some []) none).result
      = [("status", "error"), ("message", "down")] := by
  constructor
  · exact ((C4_facade_error_shape (fun _ => Except.error "boom")
      (fun _ => Except.error "down")
      (fun _ _ _ => Except.error "down") (fun _ _ _ => Except.error "down")
      (fun _ _ _ _ _ => Except.error "down") 0 none [] "proj" "dev"
      none none none none none none none none none none none none none
      none none none none none none).1 _ rfl).1
  · exact ((C4_facade_error_shape (fun _ => Except.ok "T")
      (fun _ => Except.error "down")
      (fun _ _ _ => Except.error "down") (fun _ _ _ => Except.error "down")
      (fun _ _ _ _ _ => Except.error "down") 0 (some ⟨"u", "p"⟩) [] "proj"
      "dev" none none none none none none none none none none none none
      none none none none none (some []) none).2 "T" "down" rfl).2.2.2 rfl

/-- Claim C5, as stated, is false in its cache-unchanged part: with an
expired entry under an unrelated key and a failing login, the getter fails
but has purged the expired entry, so the cache changed from a one-entry
list to the empty list. -/
theorem C5_counterexample :
    (get_session_token (fun _ => Except.error "boom") 4000 (some ⟨"u", "p"⟩)
        [("x:y", ⟨"T", 0⟩)]).result
      = Except.error "Error getting session token: boom"
    ∧ (get_session_token (fun _ => Except.error "boom") 4000 (some ⟨"u", "p"⟩)
        [("x:y", ⟨"T", 0⟩)]).cache = []
    ∧ ([] : TokenCache) ≠ [("x:y", ⟨"T", 0⟩)] := by
  refine ⟨rfl, rfl, by decide⟩

/-- Claim C5 (amended): the token getter fails exactly when no credential
pair is available, or the lookup after the lazy purge misses and the login
call fails; on failure no entry is inserted (the cache is exactly the
purged cache, and is untouched when credentials were missing, since the
purge runs after the credentials check); an entry beyond those already
cached is inserted only on a successful login. -/
theorem C5_failure_amended
    (login : Credentials → Except String String) (now : Int)
    (creds : Option Credentials) (cache : TokenCache) :
    ((∃ e, (get_session_token login now creds cache).result = Except.error e) ↔
      (creds = none
        ∨ ∃ c, creds = some c
            ∧ dictLookup (clear_expired_tokens now cache) (cache_key c) = none
            ∧ ∃ e2, login c = Except.error e2))
    ∧ ((∃ e, (get_session_token login now creds cache).result = Except.error e) →
        (get_session_token login now creds cache).cache
          = match creds with
            | none => cache
            | some _ => clear_expired_tokens now cache)
    ∧ (∀ kv ∈ (get_session_token login now creds cache).cache,
        kv ∈ cache
        ∨ ∃ c t, creds = some c ∧ login c = Except.ok t
            ∧ kv = (cache_key c, ⟨t, now⟩)) := by
  cases creds with
  | none =>
      refine ⟨?_, ?_, ?_⟩
      · simp [get_session_token]
      · intro _
        rfl
      · intro kv hkv
        exact Or.inl hkv
  | some c =>
      cases hl : dictLookup (clear_expired_tokens now cache) (cache_key c) with
      | some entry =>
          refine ⟨?_, ?_, ?_⟩
          · simp [get_session_token, hl]
          · intro _
            simp [get_session_token, hl]
          · intro kv hkv
            simp only [get_session_token, hl] at hkv
            exact Or.inl (mem_clear_expired hkv).1
      | none =>
          cases hlog : login c with
          | ok tok =>
              refine ⟨?_, ?_, ?_⟩
              · simp [get_session_token, hl, hlog]
              · intro he
                obtain ⟨e, he⟩ := he
                simp [get_session_token, hl, hlog] at he
              · intro kv hkv
                simp only [get_session_token, hl, hlog] at hkv
                rcases mem_dictInsert hkv with h2 | h2
                · exact Or.inl (mem_clear_expired h2).1
                · exact Or.inr ⟨c, tok, rfl, hlog, h2⟩
          | error e =>
              refine ⟨?_, ?_, ?_⟩
              · simp [get_session_token, hl, hlog]
              · intro _
                simp [get_session_token, hl, hlog]
              · intro kv hkv
                simp only [get_session_token, hl, hlog] at hkv
                exact Or.inl (mem_clear_expired hkv).1

/-- Witness for C5 (amended): with no credentials the getter fails, and at
the concrete failing-login input the cache after the call is exactly the
purged cache. -/
theorem C5_failure_amended_witness :
    (∃ e, (get_session_token (fun _ => Except.error "boom") 0 none []).result
        = Except.error e)
    ∧ (get_session_token (fun _ => Except.error "boom") 4000 (some ⟨"u", "p"⟩)
        [("x:y", ⟨"T", 0⟩)]).cache
      = clear_expired_tokens 4000 [("x:y", ⟨"T", 0⟩)] := by
  constructor
  · exact (C5_failure_amended (fun _ => Except.error "boom") 0 none []).1.mpr
      (Or.inl rfl)
  · exact (C5_failure_amended (fun _ => Except.error "boom") 4000
      (some ⟨"u", "p"⟩) [("x:y", ⟨"T", 0⟩)]).2.1
      ⟨"Error getting session token: boom", rfl⟩

theorem load_env_false_snd (envU envP : Option String) (creds : Option Credentials)
    (h : (load_credentials_from_env envU envP creds).1 = false) :
    (load_credentials_from_env envU envP creds).2 = creds := by
  cases envU with
  | none => rfl
  | some u =>
      cases envP with
      | none => rfl
      | some p =>
          by_cases hc : u ≠ "" ∧ p ≠ ""
          · simp [load_credentials_from_env, hc] at h
          · simp [load_credentials_from_env, hc]

/-- Claim C6 names the defect precisely: the setCredentials tool, called
with a non-empty username and password, ends its body with no return
statement (the line after set_credentials is only the comment about
verifying credentials), so Python returns None instead of the status
mapping promised by the function's docstring and its return annotation.
The model evaluates it at the failing input. -/
theorem C6_set_credentials_tool_returns_none :
    set_credentials_tool none none none "u" "p" = (none, some ⟨"u", "p"⟩)
    ∧ (set_credentials_tool none none (some ⟨"a", "b"⟩) "u" "p").1 = none := by
  exact ⟨rfl, rfl⟩

/-- Claim C7, as stated, is false for the empty pair: calling the
setCredentials tool with identity and secret both the empty string does not
replace the active pair ("u", "p") with ("", ""); the guard
`if not username and not password` routes the call to the environment
fallback, which (with no environment variables) errors and leaves the
active pair untouched. -/
theorem C7_counterexample :
    (set_credentials_tool none none (some ⟨"u", "p"⟩) "" "").2 = some ⟨"u", "p"⟩
    ∧ some (⟨"u", "p"⟩ : Credentials) ≠ some ⟨"", ""⟩
    ∧ (set_credentials_tool none none (some ⟨"u", "p"⟩) "" "").1
        = some [("status", "error"),
                ("message", "No credentials provided and none found in environment variables")] := by
  refine ⟨rfl, by decide, rfl⟩

/-- Claim C7 (amended): the setCredentials tool replaces the active pair
with the supplied pair unconditionally whenever at least one of the two
strings is non-empty (so a pair with just one empty component is installed
verbatim), and performs no remote validation at set-time (the installation
path involves no login call: its outcome does not depend on any remote
oracle); when both strings are empty it instead falls back to the
environment, and if that fails the active pair is left unchanged. -/
theorem C7_set_credentials_amended
    (envU envP : Option String) (creds : Option Credentials) (u p : String) :
    (¬(u = "" ∧ p = "") →
      set_credentials_tool envU envP creds u p = (none, set_credentials u p)
      ∧ set_credentials u p = some ⟨u, p⟩)
    ∧ ((u = "" ∧ p = "") →
        (load_credentials_from_env envU envP creds).1 = false →
        (set_credentials_tool envU envP creds u p).2 = creds) := by
  constructor
  · intro h
    exact ⟨by simp [set_credentials_tool, h], rfl⟩
  · rintro ⟨hu, hp⟩ hload
    subst hu
    subst hp
    cases envU with
    | none => rfl
    | some u2 =>
        cases envP with
        | none => rfl
        | some p2 =>
            by_cases hc : u2 ≠ "" ∧ p2 ≠ ""
            · simp [load_credentials_from_env, hc] at hload
            · simp [set_credentials_tool, load_credentials_from_env, hc]

/-- Witness for C7 (amended): a pair with an empty secret is installed
verbatim, and the all-empty call with no environment leaves the active
pair unchanged. -/
theorem C7_set_credentials_amended_witness :
    set_credentials_tool none none none "x" "" = (none, some ⟨"x", ""⟩)
    ∧ (set_credentials_tool none none (some ⟨"u", "p"⟩) "" "").2
        = some ⟨"u", "p"⟩ := by
  constructor
  · have h := (C7_set_credentials_amended none none none "x" "").1 (by decide)
    rw [h.1, h.2]
  · exact (C7_set_credentials_amended none none (some ⟨"u", "p"⟩) "" "").2
      ⟨rfl, rfl⟩ rfl

/-- Claim C8: with a token available, sendNote with both body and payload
left unset (body defaulting to the empty dict, payload to None) still
passes a note to the remote note-add endpoint, whatever that endpoint then
does; and sendNote with a non-empty body returns the success mapping
whenever the remote note-add call succeeds. -/
theorem C8_send_note_contract
    (login : Credentials → Except String String)
    (noteAdd : String → String → String → Option String → Note →
      Except String Unit)
    (now : Int) (creds : Option Credentials) (cache : TokenCache)
    (pu du2 : String) (nfid : Option String) (t : String)
    (h : (get_session_token login now creds cache).result = Except.ok t) :
    ((send_note login noteAdd now creds cache pu du2 nfid
        SEND_NOTE_BODY_DEFAULT SEND_NOTE_PAYLOAD_DEFAULT).sentNote
      = some (build_note (some []) none))
    ∧ (∀ b : PyDict, b ≠ [] →
        noteAdd t pu du2 nfid (build_note (some b) none) = Except.ok () →
        (send_note login noteAdd now creds cache pu du2 nfid (some b)
            none).result
          = [("status", "success"), ("message", "Note sent successfully")]) := by
  constructor
  · cases hn : noteAdd t pu du2 nfid (build_note (some []) none) with
    | ok u =>
        simp [send_note, h, SEND_NOTE_BODY_DEFAULT, SEND_NOTE_PAYLOAD_DEFAULT, hn]
    | error e =>
        simp [send_note, h, SEND_NOTE_BODY_DEFAULT, SEND_NOTE_PAYLOAD_DEFAULT, hn]
  · intro b _ hok
    simp [send_note, h, hok]

/-- Witness for C8: a concrete sendNote with both body and payload unset
passes the note with empty body; a concrete sendNote with the non-empty
body temp=21 and a succeeding remote call returns the success mapping. -/
theorem C8_send_note_contract_witness :
    (send_note (fun _ => Except.ok "T") (fun _ _ _ _ _ => Except.ok ()) 0
        (some ⟨"u", "p"⟩) [] "proj" "dev" none SEND_NOTE_BODY_DEFAULT
        SEND_NOTE_PAYLOAD_DEFAULT).sentNote = some (build_note (some []) none)
    ∧ (send_note (fun _ => Except.ok "T") (fun _ _ _ _ _ => Except.ok ()) 0
        (some ⟨"u", "p"⟩) [] "proj" "dev" none (some [("temp", "21")])
        none).result
      = [("status", "success"), ("message", "Note sent successfully")] := by
  have h := C8_send_note_contract (fun _ => Except.ok "T")
    (fun _ _ _ _ _ => Except.ok ()) 0 (some ⟨"u", "p"⟩) [] "proj" "dev" none
    "T" rfl
  exact ⟨h.1, h.2 [("temp", "21")] (by decide) rfl⟩

/-- Claim C9: the cache key is the concatenation of username, a colon, and
password; this is not injective: the distinct pairs (a, b:c) and (a:b, c)
share the key a:b:c, and after a successful getter call under the first
pair, a getter call under the second pair returns the first pair's cached
token without issuing any login. -/
theorem C9_cache_key_collision :
    (∀ c : Credentials, cache_key c = c.username ++ ":" ++ c.password)
    ∧ cache_key ⟨"a", "b:c"⟩ = cache_key ⟨"a:b", "c"⟩
    ∧ (⟨"a", "b:c"⟩ : Credentials) ≠ ⟨"a:b", "c"⟩
    ∧ (get_session_token (fun _ => Except.error "unexpected login") 0
        (some ⟨"a:b", "c"⟩)
        ((get_session_token (fun _ => Except.ok "TOK-A") 0 (some ⟨"a", "b:c"⟩)
            []).cache)).result = Except.ok "TOK-A"
    ∧ (get_session_token (fun _ => Except.error "unexpected login") 0
        (some ⟨"a:b", "c"⟩)
        ((get_session_token (fun _ => Except.ok "TOK-A") 0 (some ⟨"a", "b:c"⟩)
            []).cache)).logins = 0 := by
  refine ⟨fun _ => rfl, rfl, by decide, rfl, rfl⟩

/-- Claim C10: with a token available, a sendNote call that omits body
(so body takes its Python default, the empty dict) constructs a note whose
body field is set to the empty mapping, indistinguishable from explicitly
passing an empty body; the body field is left absent exactly when the
caller passes body = None; and an omitted payload leaves the note's
payload field unset. -/
theorem C10_body_default_semantics
    (login : Credentials → Except String String)
    (noteAdd : String → String → String → Option String → Note →
      Except String Unit)
    (now : Int) (creds : Option Credentials) (cache : TokenCache)
    (pu du2 : String) (nfid : Option String) (payload : Option String)
    (body : Option PyDict) (t : String)
    (h : (get_session_token login now creds cache).result = Except.ok t) :
    ((send_note login noteAdd now creds cache pu du2 nfid
        SEND_NOTE_BODY_DEFAULT payload).sentNote = some ⟨some [], payload⟩)
    ∧ send_note login noteAdd now creds cache pu du2 nfid
        SEND_NOTE_BODY_DEFAULT payload
      = send_note login noteAdd now creds cache pu du2 nfid (some []) payload
    ∧ ((send_note login noteAdd now creds cache pu du2 nfid none
        payload).sentNote = some ⟨none, payload⟩)
    ∧ ((send_note login noteAdd now creds cache pu du2 nfid body
        SEND_NOTE_PAYLOAD_DEFAULT).sentNote = some ⟨body, none⟩) := by
  refine ⟨?_, rfl, ?_, ?_⟩
  · cases hn : noteAdd t pu du2 nfid ⟨some [], payload⟩ with
    | ok u => simp [send_note, h, SEND_NOTE_BODY_DEFAULT, build_note, hn]
    | error e => simp [send_note, h, SEND_NOTE_BODY_DEFAULT, build_note, hn]
  · cases hn : noteAdd t pu du2 nfid ⟨none, payload⟩ with
    | ok u => simp [send_note, h, build_note, hn]
    | error e => simp [send_note, h, build_note, hn]
  · cases hn : noteAdd t pu du2 nfid ⟨body, none⟩ with
    | ok u => simp [send_note, h, SEND_NOTE_PAYLOAD_DEFAULT, build_note, hn]
    | error e => simp [send_note, h, SEND_NOTE_PAYLOAD_DEFAULT, build_note, hn]

/-- Witness for C10: at a concrete input with a working token, omitting
body yields a note with empty-mapping body, and passing body = None yields
a note with no body field. -/
theorem C10_body_default_semantics_witness :
    (send_note (fun _ => Except.ok "T") (fun _ _ _ _ _ => Except.ok ()) 0
        (some ⟨"u", "p"⟩) [] "proj" "dev" none SEND_NOTE_BODY_DEFAULT
        none).sentNote = some ⟨some [], none⟩
    ∧ (send_note (fun _ => Except.ok "T") (fun _ _ _ _ _ => Except.ok ()) 0
        (some ⟨"u", "p"⟩) [] "proj" "dev" none none none).sentNote
      = some ⟨none, none⟩ := by
  have h := C10_body_default_semantics (fun _ => Except.ok "T")
    (fun _ _ _ _ _ => Except.ok ()) 0 (some ⟨"u", "p"⟩) [] "proj" "dev" none
    none none "T" rfl
  exact ⟨h.1, h.2.2.1⟩

end Notehub
